import Mathlib

/-!
# gosuv2: session, request pipeline and positional decoding

A shallow embedding of the Go package `gosuv2` (`gosuv2.go`, `session.go`,
`grades.go`, `search.go`).

* A Go function returning `(*T, error)` becomes a function returning
  `Option T × Option GoError`; `(nil, err)` is `(none, some err)`.
* Methods on `*SuvClient` take the client state and return the new state
  next to their results.
* What the network does with one request is an input, `Exchange`.
* A body is a `String`, a sequence of code points. The phrases the package
  looks for in a body are ASCII, so looking among the characters finds what
  looking among the UTF-8 bytes finds.
* `encoding/json` is a library: the step from text to a JSON document is the
  parameter `JsonText`; `goJson` is a concrete reader used to evaluate the
  definitions on concrete bodies. The step from a document to a Go value is
  `decodeStringSlice`, `decodeStructSlice` and `unmarshalInterfaceSlice`.
-/

namespace Gosuv2

/-! ## Go values: errors, strings -/

/-- Go `error` values, by the way they are built. -/
inductive GoError where
  /-- Built by `errors.New(msg)` or by `fmt.Errorf` without `%w`. -/
  | text (msg : String)
  /-- Built by `fmt.Errorf(msg + ": %w", cause)`. -/
  | wrap (msg : String) (cause : GoError)
  /-- A `*json.SyntaxError` or a read error of `encoding/json`; which of
  them, and its text, is left open. -/
  | jsonSyntax
  /-- The `*json.UnmarshalTypeError`: JSON `value` does not fit Go type `target`. -/
  | jsonType (value : String) (target : String)
  /-- An error of `net/http` or `net/url`. -/
  | net (detail : String)
  deriving DecidableEq, Repr

/-- Go `unicode.IsSpace`: the code points `strings.TrimSpace` removes. -/
def isSpace (c : Char) : Bool :=
  let n := c.toNat
  n == 0x09 || n == 0x0A || n == 0x0B || n == 0x0C || n == 0x0D || n == 0x20 ||
  n == 0x85 || n == 0xA0 || n == 0x1680 || (0x2000 ≤ n && n ≤ 0x200A) ||
  n == 0x2028 || n == 0x2029 || n == 0x202F || n == 0x205F || n == 0x3000

/-- Drop the longest prefix and the longest suffix whose characters satisfy `p`. -/
def trimFunc (p : Char → Bool) (s : String) : String :=
  String.mk (((s.data.dropWhile p).reverse.dropWhile p).reverse)

/-- Go `strings.TrimSpace`. -/
def TrimSpace (s : String) : String := trimFunc isSpace s

/-- Go `strings.Trim(s, cutset)`: leading and trailing characters of `cutset` removed. -/
def Trim (s : String) (cutset : String) : String :=
  trimFunc (fun c => cutset.data.contains c) s

/-- Whether `pat` starts `s`. -/
def startsWith : List Char → List Char → Bool
  | _, [] => true
  | [], _ :: _ => false
  | c :: s, p :: pat => c == p && startsWith s pat

/-- Whether `pat` occurs in `s` as a contiguous run. -/
def containsChars : List Char → List Char → Bool
  | [], pat => pat.isEmpty
  | c :: s, pat => startsWith (c :: s) pat || containsChars s pat

/-- Go `strings.Contains` and `bytes.Contains` on a body and a pattern. -/
def Contains (s substr : String) : Bool := containsChars s.data substr.data

/-! ## JSON documents -/

/-- A JSON document. An object keeps its members in the order of the text,
repeated keys included; a number keeps its literal. -/
inductive JSON where
  | null
  | bool (b : Bool)
  | num (lit : String)
  | str (s : String)
  | arr (elems : List JSON)
  | obj (members : List (String × JSON))
  deriving Repr, Inhabited

/-- The `%T` of the Go value `json.Unmarshal` stores in an `interface{}`. -/
def goTypeName : JSON → String
  | .null => "<nil>"
  | .bool _ => "bool"
  | .num _ => "float64"
  | .str _ => "string"
  | .arr _ => "[]interface \x7b\x7d"
  | .obj _ => "map[string]interface \x7b\x7d"

/-- The `Value` field of a `json.UnmarshalTypeError` for a JSON value. -/
def jsonKind : JSON → String
  | .null => "null"
  | .bool _ => "bool"
  | .num _ => "number"
  | .str _ => "string"
  | .arr _ => "array"
  | .obj _ => "object"

/-- The text-to-document step of `encoding/json`, before a value is stored in
a Go value. `unmarshal` is the one of `json.Unmarshal`: the whole text is one
JSON value. `decode` is the one of `json.NewDecoder(r).Decode`: the first
JSON value of the stream. -/
structure JsonText where
  unmarshal : String → Except GoError JSON
  decode : String → Except GoError JSON

/-! ### A concrete reader

`goJson` reads JSON text by the grammar of RFC 8259, which is the grammar of
`encoding/json`. It is used to run the definitions on concrete bodies; the
theorems that quantify over bodies hold for every `JsonText`. -/

/-- Skip JSON white space. -/
def skipWs : List Char → List Char
  | [] => []
  | c :: cs => if c == ' ' || c == '\t' || c == '\n' || c == '\r' then skipWs cs else c :: cs

/-- The value of a hexadecimal digit. -/
def hexVal (c : Char) : Option Nat :=
  if '0' ≤ c ∧ c ≤ '9' then some (c.toNat - '0'.toNat)
  else if 'a' ≤ c ∧ c ≤ 'f' then some (c.toNat - 'a'.toNat + 10)
  else if 'A' ≤ c ∧ c ≤ 'F' then some (c.toNat - 'A'.toNat + 10)
  else none

/-- The number four hexadecimal digits write. -/
def hex4 (a b c d : Char) : Option Nat := do
  let x ← hexVal a
  let y ← hexVal b
  let z ← hexVal c
  let w ← hexVal d
  pure (((x * 16 + y) * 16 + z) * 16 + w)

/-- Read a string's characters after its opening quote, up to the closing
quote; `acc` holds the characters read so far, last first, and `fuel` bounds
the number of characters read. A `\u` escape of a surrogate pair is one
character, a lone surrogate is U+FFFD. -/
def readString : Nat → List Char → List Char → Option (String × List Char)
  | 0, _, _ => none
  | _ + 1, [], _ => none
  | fuel + 1, c :: rest, acc =>
    if c == '"' then some (String.mk acc.reverse, rest)
    else if c == '\\' then
      match rest with
      | 'u' :: h1 :: h2 :: h3 :: h4 :: rest1 =>
        match hex4 h1 h2 h3 h4 with
        | none => none
        | some hi =>
          if 0xD800 ≤ hi ∧ hi < 0xDC00 then
            match rest1 with
            | '\\' :: 'u' :: l1 :: l2 :: l3 :: l4 :: rest2 =>
              match hex4 l1 l2 l3 l4 with
              | some lo =>
                if 0xDC00 ≤ lo ∧ lo < 0xE000 then
                  readString fuel rest2
                    (Char.ofNat (0x10000 + (hi - 0xD800) * 0x400 + (lo - 0xDC00)) :: acc)
                else readString fuel rest1 (Char.ofNat 0xFFFD :: acc)
              | none => readString fuel rest1 (Char.ofNat 0xFFFD :: acc)
            | _ => readString fuel rest1 (Char.ofNat 0xFFFD :: acc)
          else if 0xDC00 ≤ hi ∧ hi < 0xE000 then readString fuel rest1 (Char.ofNat 0xFFFD :: acc)
          else readString fuel rest1 (Char.ofNat hi :: acc)
      | e :: rest1 =>
        if e == '"' then readString fuel rest1 ('"' :: acc)
        else if e == '\\' then readString fuel rest1 ('\\' :: acc)
        else if e == '/' then readString fuel rest1 ('/' :: acc)
        else if e == 'b' then readString fuel rest1 (Char.ofNat 8 :: acc)
        else if e == 'f' then readString fuel rest1 (Char.ofNat 12 :: acc)
        else if e == 'n' then readString fuel rest1 ('\n' :: acc)
        else if e == 'r' then readString fuel rest1 ('\r' :: acc)
        else if e == 't' then readString fuel rest1 ('\t' :: acc)
        else none
      | [] => none
    else if c.toNat < 0x20 then none
    else readString fuel rest (c :: acc)

/-- Split off the leading decimal digits. -/
def spanDigits (cs : List Char) : List Char × List Char := cs.span Char.isDigit

/-- The number a list of decimal digits writes. -/
def digitsVal (ds : List Char) : Nat :=
  ds.foldl (fun n d => n * 10 + (d.toNat - '0'.toNat)) 0

/-- The number `2^1024 - 2^970`, halfway between the largest `float64` and
`2^1024`. -/
def float64Bound : Nat :=
  179769313486231580793728971405303415079934132710037826936173778980444968292764750946649017977587207096330286416692887910946555547851940402630657488671505820681908902000708383676273854845817711531764475730270069855571366959622842914819860834936475292719074168444365510704342711559699508093042880177904174497792

/-- The power `10 ^ n`. -/
def pow10 : Nat → Nat
  | 0 => 1
  | n + 1 => 10 * pow10 n

/-- Whether `mant * 10 ^ (exp - scale)` converts to a `float64`, as
`strconv.ParseFloat` decides it: it is below `2^1024 - 2^970`, the least
number that rounds to infinity. -/
def fitsFloat64 (mant : Nat) (expNeg : Bool) (exp scale : Nat) : Bool :=
  let bound := float64Bound
  if mant = 0 then true
  else if expNeg then mant < bound * pow10 (exp + scale)
  else if scale ≤ exp then mant * pow10 (exp - scale) < bound
  else mant < bound * pow10 (scale - exp)

/-- Read a JSON number, returning its literal. With `toFloat`, the number
must fit a `float64`. -/
def readNumber (toFloat : Bool) (cs : List Char) : Option (String × List Char) :=
  let (sign, cs1) := match cs with
    | '-' :: r => (['-'], r)
    | _ => ([], cs)
  let (int, cs2) := spanDigits cs1
  if int.isEmpty ∨ (int.length > 1 ∧ int.head? = some '0') then none
  else
    let frac : Option (List Char × List Char) := match cs2 with
      | '.' :: r =>
        let (ds, r2) := spanDigits r
        if ds.isEmpty then none else some (ds, r2)
      | _ => some ([], cs2)
    match frac with
    | none => none
    | some (fr, cs3) =>
      let exp : Option (List Char × List Char × List Char) := match cs3 with
        | e :: r =>
          if e == 'e' || e == 'E' then
            let (sg, r1) := match r with
              | '+' :: t => (['+'], t)
              | '-' :: t => (['-'], t)
              | _ => ([], r)
            let (ds, r2) := spanDigits r1
            if ds.isEmpty then none else some (e :: sg, ds, r2)
          else some ([], [], cs3)
        | [] => some ([], [], cs3)
      match exp with
      | none => none
      | some (ex, exDigits, cs4) =>
        if toFloat ∧
            ¬ fitsFloat64 (digitsVal (int ++ fr)) (ex.contains '-') (digitsVal exDigits) fr.length
        then none
        else
          some (String.mk (sign ++ int ++ (if fr.isEmpty then [] else '.' :: fr) ++ ex ++ exDigits),
            cs4)

mutual
/-- Read one JSON value; `fuel` bounds the number of values read. -/
def readValue : Nat → List Char → Option (JSON × List Char)
  | 0, _ => none
  | fuel + 1, cs =>
    match skipWs cs with
    | 'n' :: 'u' :: 'l' :: 'l' :: rest => some (.null, rest)
    | 't' :: 'r' :: 'u' :: 'e' :: rest => some (.bool true, rest)
    | 'f' :: 'a' :: 'l' :: 's' :: 'e' :: rest => some (.bool false, rest)
    | '"' :: rest => (readString rest.length rest []).map (fun r => (.str r.1, r.2))
    | '[' :: rest =>
      match skipWs rest with
      | ']' :: rest2 => some (.arr [], rest2)
      | _ => (readElems fuel rest []).map (fun r => (.arr r.1, r.2))
    | '{' :: rest =>
      match skipWs rest with
      | '}' :: rest2 => some (.obj [], rest2)
      | _ => (readMembers fuel rest []).map (fun r => (.obj r.1, r.2))
    | rest => (readNumber false rest).map (fun r => (.num r.1, r.2))
/-- Read the elements of an array after its opening bracket. -/
def readElems : Nat → List Char → List JSON → Option (List JSON × List Char)
  | 0, _, _ => none
  | fuel + 1, cs, acc =>
    match readValue fuel cs with
    | none => none
    | some (v, rest) =>
      match skipWs rest with
      | ',' :: rest2 => readElems fuel rest2 (v :: acc)
      | ']' :: rest2 => some ((v :: acc).reverse, rest2)
      | _ => none
/-- Read the members of an object after its opening brace. -/
def readMembers :
    Nat → List Char → List (String × JSON) → Option (List (String × JSON) × List Char)
  | 0, _, _ => none
  | fuel + 1, cs, acc =>
    match skipWs cs with
    | '"' :: rest =>
      match readString rest.length rest [] with
      | none => none
      | some (k, rest1) =>
        match skipWs rest1 with
        | ':' :: rest2 =>
          match readValue fuel rest2 with
          | none => none
          | some (v, rest3) =>
            match skipWs rest3 with
            | ',' :: rest4 => readMembers fuel rest4 ((k, v) :: acc)
            | '}' :: rest4 => some (((k, v) :: acc).reverse, rest4)
            | _ => none
        | _ => none
    | _ => none
end

/-- The concrete reader: `unmarshal` wants nothing but white space after the
value, `decode` stops after the first value. -/
def goJson : JsonText where
  unmarshal := fun s =>
    match readValue (s.length + 1) s.data with
    | some (v, rest) => if (skipWs rest).isEmpty then .ok v else .error .jsonSyntax
    | none => .error .jsonSyntax
  decode := fun s =>
    match readValue (s.length + 1) s.data with
    | some (v, _) => .ok v
    | none => .error .jsonSyntax

/-! ## From a JSON document to a Go value -/

/-- Whether the number a literal writes fits a `float64`. -/
def numberFits (lit : String) : Bool :=
  match readNumber true lit.data with
  | some (_, []) => true
  | _ => false

mutual
/-- The literal of the first number of a JSON value, in the order of the
text, that does not fit a `float64`. -/
def JSON.firstBadNumber : JSON → Option String
  | .num lit => if numberFits lit then none else some lit
  | .arr elems => firstBadNumberIn elems
  | .obj members => firstBadNumberOf members
  | _ => none
/-- The first such literal in a list of values. -/
def firstBadNumberIn : List JSON → Option String
  | [] => none
  | v :: vs =>
    match v.firstBadNumber with
    | some lit => some lit
    | none => firstBadNumberIn vs
/-- The first such literal in the members of an object. -/
def firstBadNumberOf : List (String × JSON) → Option String
  | [] => none
  | (_, v) :: ms =>
    match v.firstBadNumber with
    | some lit => some lit
    | none => firstBadNumberOf ms
end

/-- The `json.Unmarshal(data, &rawResponse)` of `grades.go` with
`rawResponse []interface{}`, after the text is read: an array gives its
elements, each stored in an `interface{}` with its numbers as `float64`, and
the first number that fits none is a type error; `null` leaves the slice
nil; anything else is a type error. -/
def unmarshalInterfaceSlice : JSON → Except GoError (List JSON)
  | .arr elems =>
    match firstBadNumberIn elems with
    | some lit => .error (.jsonType ("number " ++ lit) "float64")
    | none => .ok elems
  | .null => .ok []
  | v => .error (.jsonType (jsonKind v) "[]interface \x7b\x7d")

/-- Decode a JSON value into a Go `string` holding `old`: a string replaces
it, `null` leaves it, anything else is a type error. -/
def decodeString (old : String) : JSON → Except GoError String
  | .str s => .ok s
  | .null => .ok old
  | v => .error (.jsonType (jsonKind v) "string")

/-- Decode the elements of a JSON array into the elements of a `[]string`
whose backing array holds `store`: element `i` starts from `store[i]`, or
from the empty string past the end of `store`. -/
def decodeStringElems : List String → List JSON → Except GoError (List String)
  | _, [] => .ok []
  | store, v :: vs =>
    match decodeString (store.headD "") v with
    | .error e => .error e
    | .ok s =>
      match decodeStringElems store.tail vs with
      | .error e => .error e
      | .ok ss => .ok (s :: ss)

/-- Decode a JSON value into a Go `[]string` that holds `old`, with `spare`
left in its backing array after them by an earlier decoding. The result is
the new elements and what is left after them. `null` makes the slice nil and
the empty array makes it a new empty slice; another array is decoded element
by element over the backing array, which keeps what lies past the new
elements; anything else is a type error. -/
def decodeStringSlice (old spare : List String) :
    JSON → Except GoError (List String × List String)
  | .arr [] => .ok ([], [])
  | .arr elems =>
    match decodeStringElems (old ++ spare) elems with
    | .error e => .error e
    | .ok ss => .ok (ss, (old ++ spare).drop elems.length)
  | .null => .ok ([], [])
  | v => .error (.jsonType (jsonKind v) "[]string")

/-- The case folding `encoding/json` matches an object key with a struct
field's name by: ASCII letters fold together, and so do the Kelvin sign with
`k` and the long s with `s`. -/
def foldChar (c : Char) : Char :=
  if 'A' ≤ c ∧ c ≤ 'Z' then Char.ofNat (c.toNat + 32)
  else if c.toNat = 0x212A then 'k'
  else if c.toNat = 0x17F then 's'
  else c

/-- A key, folded. The field names of this package are lower case, so a key
names a field exactly when its folding is the field's name. -/
def foldName (key : String) : String := String.mk (key.data.map foldChar)

/-- Decode the members of a JSON object into a Go struct, one member after
the other, with `setField` storing a member. -/
def decodeMembers {α : Type} (setField : α → String → JSON → Except GoError α) :
    α → List (String × JSON) → Except GoError α
  | a, [] => .ok a
  | a, (k, v) :: rest =>
    match setField a k v with
    | .error e => .error e
    | .ok a1 => decodeMembers setField a1 rest

/-- Decode a JSON value into a Go struct that holds `zero`: an object is
decoded member by member, `null` leaves the struct, anything else is a type
error. -/
def decodeStruct {α : Type} (goType : String) (setField : α → String → JSON → Except GoError α)
    (zero : α) : JSON → Except GoError α
  | .obj members => decodeMembers setField zero members
  | .null => .ok zero
  | v => .error (.jsonType (jsonKind v) goType)

/-- Decode the elements of a JSON array into structs. -/
def decodeStructElems {α : Type} (goType : String)
    (setField : α → String → JSON → Except GoError α) (zero : α) :
    List JSON → Except GoError (List α)
  | [] => .ok []
  | v :: vs =>
    match decodeStruct goType setField zero v with
    | .error e => .error e
    | .ok a =>
      match decodeStructElems goType setField zero vs with
      | .error e => .error e
      | .ok as => .ok (a :: as)

/-- Decode a JSON value into a nil Go slice of structs: `null` leaves it nil,
an array is decoded element by element into fresh structs, anything else is a
type error. `encoding/json` reports the first type error it meets. -/
def decodeStructSlice {α : Type} (goType : String)
    (setField : α → String → JSON → Except GoError α) (zero : α) :
    JSON → Except GoError (List α)
  | .arr elems => decodeStructElems goType setField zero elems
  | .null => .ok []
  | v => .error (.jsonType (jsonKind v) ("[]" ++ goType))

/-- Lexicographic order on strings by code point, the order of their UTF-8
bytes: whether `a` comes no later than `b`. -/
def keyLe : List Char → List Char → Bool
  | [], _ => true
  | _ :: _, [] => false
  | a :: as, b :: bs => a.toNat < b.toNat || (a.toNat == b.toNat && keyLe as bs)

/-- Insert a key into a sorted list of keys. -/
def insertKey (k : String) : List String → List String
  | [] => [k]
  | x :: xs => if keyLe k.data x.data then k :: x :: xs else x :: insertKey k xs

/-- The keys, sorted and without repetition. -/
def sortedKeys : List String → List String
  | [] => []
  | k :: ks => if ks.contains k then sortedKeys ks else insertKey k (sortedKeys ks)

/-- The members of the Go `map[string]interface{}` an object decodes to, in
the order `json.Marshal` writes them: one member per key, the last of the
text, sorted by key. -/
def mapMembers (members : List (String × JSON)) : List (String × JSON) :=
  (sortedKeys (members.map Prod.fst)).filterMap
    (fun k => members.reverse.find? (fun m => m.1 == k))

/-- The document `json.Marshal` writes for the `interface{}` value a JSON
value was decoded to, as far as `decodeStructSlice` looks into it: the
objects of an array are written from their maps. -/
def marshalInterface : JSON → JSON
  | .arr elems => .arr (elems.map (fun v =>
      match v with
      | .obj members => .obj (mapMembers members)
      | w => w))
  | .obj members => .obj (mapMembers members)
  | v => v

/-! ## grades.go -/

/-- The struct `SuvCurrentCourseGrades`. -/
structure SuvCurrentCourseGrades where
  IdCurso : String := ""
  Curso : String := ""
  Vez : String := ""
  Promedio1 : String := ""
  Promedio2 : String := ""
  Promedio3 : String := ""
  Promedio4 : String := ""
  Promedio5 : String := ""
  Promedio6 : String := ""
  Sustitutorio : String := ""
  Promedio : String := ""
  Aplazado : String := ""
  PromedioFinal : String := ""
  Inhabilitado : String := ""
  Pesos : List String := []
  Estados : List String := []
  EstadoFinal : String := ""
  deriving DecidableEq, Repr

/-- A `SuvCurrentCourseGrades` while `encoding/json` fills it: the struct,
and what earlier members left in the backing arrays of `Pesos` and `Estados`
after their elements. -/
structure CourseDecoding where
  course : SuvCurrentCourseGrades := {}
  pesosSpare : List String := []
  estadosSpare : List String := []
  deriving DecidableEq, Repr

/-- Store the member `key: v` of a JSON object in the field of
`SuvCurrentCourseGrades` whose `json` tag the key names; other keys are
skipped. -/
def CourseDecoding.setField (d : CourseDecoding) (key : String) (v : JSON) :
    Except GoError CourseDecoding :=
  let k := foldName key
  let c := d.course
  if k = "idcurso" then
    (decodeString c.IdCurso v).map (fun s => { d with course := { c with IdCurso := s } })
  else if k = "curso" then
    (decodeString c.Curso v).map (fun s => { d with course := { c with Curso := s } })
  else if k = "vez" then
    (decodeString c.Vez v).map (fun s => { d with course := { c with Vez := s } })
  else if k = "promedio1" then
    (decodeString c.Promedio1 v).map (fun s => { d with course := { c with Promedio1 := s } })
  else if k = "promedio2" then
    (decodeString c.Promedio2 v).map (fun s => { d with course := { c with Promedio2 := s } })
  else if k = "promedio3" then
    (decodeString c.Promedio3 v).map (fun s => { d with course := { c with Promedio3 := s } })
  else if k = "promedio4" then
    (decodeString c.Promedio4 v).map (fun s => { d with course := { c with Promedio4 := s } })
  else if k = "promedio5" then
    (decodeString c.Promedio5 v).map (fun s => { d with course := { c with Promedio5 := s } })
  else if k = "promedio6" then
    (decodeString c.Promedio6 v).map (fun s => { d with course := { c with Promedio6 := s } })
  else if k = "sustitutorio" then
    (decodeString c.Sustitutorio v).map (fun s => { d with course := { c with Sustitutorio := s } })
  else if k = "promedio" then
    (decodeString c.Promedio v).map (fun s => { d with course := { c with Promedio := s } })
  else if k = "aplazado" then
    (decodeString c.Aplazado v).map (fun s => { d with course := { c with Aplazado := s } })
  else if k = "pfinal" then
    (decodeString c.PromedioFinal v).map (fun s => { d with course := { c with PromedioFinal := s } })
  else if k = "inh" then
    (decodeString c.Inhabilitado v).map (fun s => { d with course := { c with Inhabilitado := s } })
  else if k = "pesos" then
    (decodeStringSlice c.Pesos d.pesosSpare v).map
      (fun r => { d with course := { c with Pesos := r.1 }, pesosSpare := r.2 })
  else if k = "estados" then
    (decodeStringSlice c.Estados d.estadosSpare v).map
      (fun r => { d with course := { c with Estados := r.1 }, estadosSpare := r.2 })
  else if k = "estado_final" then
    (decodeString c.EstadoFinal v).map (fun s => { d with course := { c with EstadoFinal := s } })
  else .ok d

/-- The struct `SuvGradesResponse`. -/
structure SuvGradesResponse where
  PaymentStatus : String := ""
  EnrollmentType : String := ""
  Courses : List SuvCurrentCourseGrades := []
  Semester : String := ""
  deriving DecidableEq, Repr

/-- The `json.Unmarshal(coursesJSON, &suvGradesResponse.Courses)` of `grades.go`. -/
def decodeCourses (v : JSON) : Except GoError (List SuvCurrentCourseGrades) :=
  (decodeStructSlice "gosuv2.SuvCurrentCourseGrades" CourseDecoding.setField {} v).map
    (fun ds => ds.map CourseDecoding.course)

/-- The function `unmarshalSuvGradesResponse` of `grades.go`. `json.Marshal`
of a value that `json.Unmarshal` produced does not fail. -/
def unmarshalSuvGradesResponse (js : JsonText) (data : String) :
    Option SuvGradesResponse × Option GoError :=
  match js.unmarshal data with
  | .error e => (none, some e)
  | .ok doc =>
    match unmarshalInterfaceSlice doc with
    | .error e => (none, some e)
    | .ok rawResponse =>
      match rawResponse with
      | [r0, r1, r2, r3] =>
        match r0 with
        | .str s0 =>
          match r1 with
          | .str s1 =>
            match r3 with
            | .str s3 =>
              let coursesJSON := marshalInterface r2
              match decodeCourses coursesJSON with
              | .error e => (none, some (.wrap "error unmarshaling items" e))
              | .ok courses =>
                (some { PaymentStatus := TrimSpace (Trim s0 "\"")
                        EnrollmentType := Trim s1 "\""
                        Courses := courses
                        Semester := Trim s3 "\"" }, none)
            | _ => (none, some (.text ("unexpected type for semester: " ++ goTypeName r3)))
          | _ => (none, some (.text ("unexpected type for enrollment type: " ++ goTypeName r1)))
        | _ => (none, some (.text ("unexpected type for payment status: " ++ goTypeName r0)))
      | _ => (none, some (.text ("unexpected response length: " ++ toString rawResponse.length)))

/-! ## gosuv2.go -/

/-- The struct `SuvConfig`. -/
structure SuvConfig where
  Host : String := ""
  PhpSession : String := ""
  UserCode : String := ""
  Password : String := ""
  Detailed : Bool := false
  deriving DecidableEq, Repr

/-- An `http.Cookie`, by its name and value. -/
structure Cookie where
  Name : String
  Value : String
  deriving DecidableEq, Repr

/-- The struct `SuvCookieJar`. -/
structure SuvCookieJar where
  cookies : List Cookie := []
  deriving DecidableEq, Repr

/-- The method `SuvCookieJar.Cookies`. -/
def SuvCookieJar.Cookies (cj : SuvCookieJar) : List Cookie := cj.cookies

/-- The method `SuvCookieJar.SetCookies`. -/
def SuvCookieJar.SetCookies (_cj : SuvCookieJar) (cookies : List Cookie) : SuvCookieJar :=
  { cookies := cookies }

/-- The `url.URL` of the client. -/
structure URL where
  Scheme : String
  Host : String
  Path : String
  deriving DecidableEq, Repr

/-- The struct `SuvClient`; `Jar` is its `HttpClient.Jar`. The print
functions write to standard output and leave the client and the response as
they are. -/
structure SuvClient where
  SuvURL : URL
  Jar : SuvCookieJar
  Config : SuvConfig
  deriving DecidableEq, Repr

/-- The function `NewSuvClient`. -/
def NewSuvClient (cfg : SuvConfig) : SuvClient :=
  { SuvURL := { Scheme := "http", Host := cfg.Host, Path := "/portal" }
    Jar := {}
    Config := cfg }

/-- An `http.Response`: `Cookies` is what `res.Cookies()` returns, the
cookies of its `Set-Cookie` headers in their order. -/
structure Response where
  StatusCode : Nat
  Status : String
  Body : String
  Cookies : List Cookie := []
  deriving DecidableEq, Repr

/-- What happens to one request: `http.NewRequest` fails, or
`HttpClient.Do` fails, or `HttpClient.Do` returns a response, the answer to
the request itself (no redirect in between). -/
inductive Exchange where
  | requestError (err : GoError)
  | transportError (err : GoError)
  | response (res : Response)
  deriving DecidableEq, Repr

/-- The effect of `c.HttpClient.Do(req)` on the client when it returns `res`:
an `http.Client` with a `Jar` calls `Jar.SetCookies(req.URL, res.Cookies())`
when the response has at least one cookie. -/
def clientDo (c : SuvClient) (res : Response) : SuvClient :=
  if res.Cookies.length > 0 then { c with Jar := c.Jar.SetCookies res.Cookies } else c

/-- The method `setCookiesFromResponse`. -/
def setCookiesFromResponse (c : SuvClient) (res : Response) : SuvClient × Option GoError :=
  if res.Cookies.length = 0 then (c, some (.text "no cookies in response"))
  else
    (res.Cookies.foldl (fun c1 cookie => { c1 with Jar := c1.Jar.SetCookies [cookie] }) c, none)

/-- The marker of an error page of the server. -/
def errorMarker : String := "C:\\wamp64\\www\\SistemaSUV2"

/-- The function `checkResponseBody`; the body is left as it is. -/
def checkResponseBody (res : Response) : Option GoError :=
  if res.StatusCode ≠ 200 then some (.text ("unexpected response status: " ++ res.Status))
  else if Contains res.Body errorMarker then
    some (.text "suv2 replied with an error, check your session id or try logging in again")
  else none

/-- The method `urlEncodedPostRequest`, for what happens to its request. It
returns `(nil, err)` or `(res, nil)`: `Except.error err` or `Except.ok res`. -/
def urlEncodedPostRequest (c : SuvClient) (x : Exchange) : SuvClient × Except GoError Response :=
  match x with
  | .requestError err => (c, .error err)
  | .transportError err => (c, .error err)
  | .response res =>
    let c1 := clientDo c res
    match checkResponseBody res with
    | some err => (c1, .error err)
    | none => (c1, .ok res)

/-! ## grades.go, the request -/

/-- The function `handleSuvGradesResponse` of `grades.go`. -/
def handleSuvGradesResponse (js : JsonText) (res : Response) :
    Option SuvGradesResponse × Option GoError :=
  match unmarshalSuvGradesResponse js res.Body with
  | (_, some err) => (none, some (.wrap "error unmarshaling response" err))
  | (suvGradesResponse, none) => (suvGradesResponse, none)

/-- The method `GetSuvGradesResponse` of `grades.go`. -/
def GetSuvGradesResponse (js : JsonText) (c : SuvClient) (x : Exchange) :
    SuvClient × Option SuvGradesResponse × Option GoError :=
  match urlEncodedPostRequest c x with
  | (c1, .error err) => (c1, none, some err)
  | (c1, .ok res) =>
    match handleSuvGradesResponse js res with
    | (_, some err) => (c1, none, some err)
    | (suvGradesResponse, none) => (c1, suvGradesResponse, none)

/-! ## session.go -/

/-- Decode a JSON value into a nil Go `[]string`, the
`Decode(&validarPhpResponse)` of `handleLoginResponse`. -/
def decodeValidarPhpResponse (js : JsonText) (body : String) : Except GoError (List String) :=
  match js.decode body with
  | .error e => .error e
  | .ok doc => (decodeStringSlice [] [] doc).map Prod.fst

/-- The loop of `handleLoginResponse` over the cookies of the jar. -/
def storePhpSession (cfg : SuvConfig) (cookies : List Cookie) : SuvConfig :=
  cookies.foldl
    (fun cfg1 cookie => if cookie.Name = "PHPSESSID" then { cfg1 with PhpSession := cookie.Value } else cfg1)
    cfg

/-- The method `handleLoginResponse`; the string it returns is the value of
`c.Config.PhpSession` when it returns. -/
def handleLoginResponse (js : JsonText) (c : SuvClient) (res : Response) :
    SuvClient × Option String × Option GoError :=
  match decodeValidarPhpResponse js res.Body with
  | .error e => (c, none, some e)
  | .ok validarPhpResponse =>
    match validarPhpResponse with
    | [] => (c, none, some (.text "login failed"))
    | first :: _ =>
      if first = "0" then (c, none, some (.text "login failed, check your credentials"))
      else
        let c1 := (setCookiesFromResponse c res).1
        let c2 := { c1 with Config := storePhpSession c1.Config c1.Jar.Cookies }
        (c2, some c2.Config.PhpSession, none)

/-- The method `Login`. -/
def Login (js : JsonText) (c : SuvClient) (usercode password : String) (x : Exchange) :
    SuvClient × Option String × Option GoError :=
  let c0 := { c with Config := { c.Config with UserCode := usercode, Password := password } }
  match urlEncodedPostRequest c0 x with
  | (c1, .error err) => (c1, none, some err)
  | (c1, .ok res) =>
    match handleLoginResponse js c1 res with
    | (c2, _, some err) => (c2, none, some err)
    | (c2, phpSession, none) => (c2, phpSession, none)

/-- The method `Logout`. -/
def Logout (c : SuvClient) (x : Exchange) : SuvClient × Option GoError :=
  match x with
  | .requestError err => (c, some err)
  | .transportError err => (c, some err)
  | .response res =>
    let c1 := clientDo c res
    if ¬ Contains res.Body "Su sesion ha culminado" then
      (c1, some (.text "logout failed: unexpected response"))
    else ({ c1 with Config := { c1.Config with PhpSession := "" } }, none)

/-- The method `LoadPhpSession`. -/
def LoadPhpSession (c : SuvClient) : SuvClient × Option GoError :=
  if c.Config.PhpSession = "" then (c, some (.text "php session is empty"))
  else
    let cookie : Cookie := { Name := "PHPSESSID", Value := c.Config.PhpSession }
    ({ c with Jar := c.Jar.SetCookies [cookie] }, none)

/-! ## search.go -/

/-- The struct `StudentBasicResponse`. -/
structure StudentBasicResponse where
  IdAlumno : String := ""
  Alumno : String := ""
  Dni : String := ""
  deriving DecidableEq, Repr

/-- The struct `ProfessorBasicResponse`. -/
structure ProfessorBasicResponse where
  Codigo : String := ""
  Docente : String := ""
  Dni : String := ""
  IdTrabajador : String := ""
  deriving DecidableEq, Repr

/-- Store a member of a JSON object in the field of `StudentBasicResponse`
its key names. -/
def StudentBasicResponse.setField (r : StudentBasicResponse) (key : String) (v : JSON) :
    Except GoError StudentBasicResponse :=
  let k := foldName key
  if k = "idalumno" then (decodeString r.IdAlumno v).map (fun s => { r with IdAlumno := s })
  else if k = "alumno" then (decodeString r.Alumno v).map (fun s => { r with Alumno := s })
  else if k = "dni" then (decodeString r.Dni v).map (fun s => { r with Dni := s })
  else .ok r

/-- Store a member of a JSON object in the field of `ProfessorBasicResponse`
its key names. -/
def ProfessorBasicResponse.setField (r : ProfessorBasicResponse) (key : String) (v : JSON) :
    Except GoError ProfessorBasicResponse :=
  let k := foldName key
  if k = "codigo" then (decodeString r.Codigo v).map (fun s => { r with Codigo := s })
  else if k = "docente" then (decodeString r.Docente v).map (fun s => { r with Docente := s })
  else if k = "dni" then (decodeString r.Dni v).map (fun s => { r with Dni := s })
  else if k = "idtrabajador" then
    (decodeString r.IdTrabajador v).map (fun s => { r with IdTrabajador := s })
  else .ok r

/-- The interface `SearchBasicResponse`, by the values this package stores
in it: nil, a `*[]StudentBasicResponse` or a `*[]ProfessorBasicResponse`. -/
inductive SearchBasicResponse where
  | nil
  | students (p : List StudentBasicResponse)
  | professors (p : List ProfessorBasicResponse)
  deriving DecidableEq, Repr

/-- How a call ends: it returns its two results, or it panics in a type
assertion `x.(T)` whose operand holds a value that is not a `T`. -/
inductive Outcome (α : Type) where
  | returned (result : Option α) (err : Option GoError)
  | assertionPanic (holds : String) (want : String)
  deriving DecidableEq, Repr

/-- The method `parseSearchStudentResponse`. -/
def parseSearchStudentResponse (js : JsonText) (res : Response) : SearchBasicResponse :=
  match js.decode res.Body with
  | .error _ => .nil
  | .ok doc =>
    match decodeStructSlice "gosuv2.StudentBasicResponse" StudentBasicResponse.setField {} doc with
    | .error _ => .nil
    | .ok students => .students students

/-- The method `parseSearchProfessorResponse`. -/
def parseSearchProfessorResponse (js : JsonText) (res : Response) : SearchBasicResponse :=
  match js.decode res.Body with
  | .error _ => .nil
  | .ok doc =>
    match decodeStructSlice "gosuv2.ProfessorBasicResponse" ProfessorBasicResponse.setField {} doc with
    | .error _ => .nil
    | .ok professors => .professors professors

/-- The method `searchGeneric`, for what happens to its request. -/
def searchGeneric (c : SuvClient) (x : Exchange) (parser : Response → SearchBasicResponse) :
    SuvClient × SearchBasicResponse :=
  match urlEncodedPostRequest c x with
  | (c1, .error _) => (c1, .nil)
  | (c1, .ok res) => (c1, parser res)

/-- The expression `v.(*[]StudentBasicResponse), nil` the student searches return. -/
def assertStudents : SearchBasicResponse → Outcome (List StudentBasicResponse)
  | .students p => .returned (some p) none
  | .nil => .assertionPanic "nil" "*[]gosuv2.StudentBasicResponse"
  | .professors _ =>
    .assertionPanic "*[]gosuv2.ProfessorBasicResponse" "*[]gosuv2.StudentBasicResponse"

/-- The expression `v.(*[]ProfessorBasicResponse), nil` `SearchProfessor` returns. -/
def assertProfessors : SearchBasicResponse → Outcome (List ProfessorBasicResponse)
  | .professors p => .returned (some p) none
  | .nil => .assertionPanic "nil" "*[]gosuv2.ProfessorBasicResponse"
  | .students _ =>
    .assertionPanic "*[]gosuv2.StudentBasicResponse" "*[]gosuv2.ProfessorBasicResponse"

/-- The method `SearchStudentByName`; the form values reach the server only. -/
def SearchStudentByName (js : JsonText) (c : SuvClient) (_name _lastname : String) (x : Exchange) :
    SuvClient × Outcome (List StudentBasicResponse) :=
  let r := searchGeneric c x (parseSearchStudentResponse js)
  (r.1, assertStudents r.2)

/-- The method `SearchStudentByCode`. -/
def SearchStudentByCode (js : JsonText) (c : SuvClient) (_code : String) (x : Exchange) :
    SuvClient × Outcome (List StudentBasicResponse) :=
  let r := searchGeneric c x (parseSearchStudentResponse js)
  (r.1, assertStudents r.2)

/-- The method `SearchStudentByDni`. -/
def SearchStudentByDni (js : JsonText) (c : SuvClient) (_dni : String) (x : Exchange) :
    SuvClient × Outcome (List StudentBasicResponse) :=
  let r := searchGeneric c x (parseSearchStudentResponse js)
  (r.1, assertStudents r.2)

/-- The method `SearchStudent`. -/
def SearchStudent (js : JsonText) (c : SuvClient) (code name lastname dni : String) (x : Exchange) :
    SuvClient × Outcome (List StudentBasicResponse) :=
  if code ≠ "" then SearchStudentByCode js c code x
  else if name ≠ "" ∧ lastname ≠ "" then SearchStudentByName js c name lastname x
  else if dni ≠ "" then SearchStudentByDni js c dni x
  else (c, .returned none (some (.text "no valid search criteria provided")))

/-- The method `SearchProfessor`. -/
def SearchProfessor (js : JsonText) (c : SuvClient) (_name _lastname : String) (x : Exchange) :
    SuvClient × Outcome (List ProfessorBasicResponse) :=
  let r := searchGeneric c x (parseSearchProfessorResponse js)
  (r.1, assertProfessors r.2)

/-- Whether a JSON value is a string. -/
def JSON.isStr : JSON → Bool
  | .str _ => true
  | _ => false

/-! ## The course-grade schema -/

/-- Whether a JSON value is an array of strings. -/
def JSON.isStrArray : JSON → Bool
  | .arr elems => elems.all JSON.isStr
  | _ => false

/-- The `json` tags of the `string` fields of `SuvCurrentCourseGrades`. -/
def courseStringTags : List String :=
  ["idcurso", "curso", "vez", "promedio1", "promedio2", "promedio3", "promedio4", "promedio5",
   "promedio6", "sustitutorio", "promedio", "aplazado", "pfinal", "inh", "estado_final"]

/-- The `json` tags of the `[]string` fields of `SuvCurrentCourseGrades`. -/
def courseListTags : List String := ["pesos", "estados"]

/-- Whether a member of an object fits the course-grade schema: under the
name of a string field it holds a string, under the name of a list field an
array of strings; other names are free. -/
def memberFitsCourse (m : String × JSON) : Bool :=
  if courseListTags.contains (foldName m.1) then m.2.isStrArray
  else if courseStringTags.contains (foldName m.1) then m.2.isStr
  else true

/-- Whether a JSON value is an object that matches the course-grade schema. -/
def isCourseObject : JSON → Bool
  | .obj members => members.all memberFitsCourse
  | _ => false

/-! ## Sequences of calls -/

/-- One call of a session method, with what happens to its request. -/
inductive Call where
  | login (usercode password : String) (x : Exchange)
  | loadPhpSession
  | logout (x : Exchange)
  deriving DecidableEq, Repr

/-- The client after a call. -/
def Call.apply (js : JsonText) (c : SuvClient) : Call → SuvClient
  | .login usercode password x => (Login js c usercode password x).1
  | .loadPhpSession => (LoadPhpSession c).1
  | .logout x => (Logout c x).1

/-- The client after a sequence of calls. -/
def runCalls (js : JsonText) (c : SuvClient) (calls : List Call) : SuvClient :=
  calls.foldl (Call.apply js) c

/-- The jar holds a cookie named PHPSESSID whose value is `Config.PhpSession`,
unless `Config.PhpSession` is empty. -/
def sessionInJar (c : SuvClient) : Prop :=
  c.Config.PhpSession ≠ "" →
    ∃ k ∈ c.Jar.Cookies, k.Name = "PHPSESSID" ∧ k.Value = c.Config.PhpSession

/-- Whether a login response is accepted: it passes `checkResponseBody` and
its body decodes to a string array that is not empty and does not start with
"0". -/
def loginAccepted (js : JsonText) (res : Response) : Bool :=
  match checkResponseBody res, decodeValidarPhpResponse js res.Body with
  | none, .ok (first :: _) => first != "0"
  | _, _ => false

/-- Whether the last cookie of a list is named PHPSESSID. -/
def endsWithPhpSession (cookies : List Cookie) : Bool :=
  match cookies.getLast? with
  | some k => k.Name == "PHPSESSID"
  | none => false

/-- Whether a call's response sets cookies only as an accepted login response
whose last cookie is PHPSESSID. -/
def Call.setsSessionOnly (js : JsonText) : Call → Bool
  | .login _ _ (.response res) =>
    res.Cookies.isEmpty || (loginAccepted js res && endsWithPhpSession res.Cookies)
  | .logout (.response res) => res.Cookies.isEmpty
  | _ => true

/-! ## Theorems -/

set_option maxRecDepth 100000

/-- C2, as the code has it: a text that is a top-level array whose length is
not 4 gives no record and an error, which is the error that reports the
length when every number of the array fits a `float64`, and the type error
of `json.Unmarshal` for the first number that does not otherwise. -/
theorem unmarshalSuvGradesResponse_unexpected_length (js : JsonText) (data : String)
    (elems : List JSON) (hdoc : js.unmarshal data = .ok (.arr elems)) (hlen : elems.length ≠ 4) :
    unmarshalSuvGradesResponse js data
      = (none, some (
          match firstBadNumberIn elems with
          | some lit => .jsonType ("number " ++ lit) "float64"
          | none => .text ("unexpected response length: " ++ toString elems.length))) := by
  unfold unmarshalSuvGradesResponse
  rw [hdoc]
  simp only [unmarshalInterfaceSlice]
  cases firstBadNumberIn elems with
  | some lit => rfl
  | none =>
    match elems, hlen with
    | [], _ => rfl
    | [_], _ => rfl
    | [_, _], _ => rfl
    | [_, _, _], _ => rfl
    | [_, _, _, _], h => exact absurd rfl h
    | _ :: _ :: _ :: _ :: _ :: _, _ => rfl

/-- C2, the amended claim at the empty array, at arrays of 3 and of 5
elements, and at an array of 2 elements with a number beyond `float64`. -/
theorem unmarshalSuvGradesResponse_unexpected_length_witness :
    unmarshalSuvGradesResponse goJson "[]"
        = (none, some (.text "unexpected response length: 0")) ∧
      unmarshalSuvGradesResponse goJson "[\"PAGADO\",\"REGULAR\",[]]"
        = (none, some (.text "unexpected response length: 3")) ∧
      unmarshalSuvGradesResponse goJson "[\"PAGADO\",12.5,[],\"2024-I\",null]"
        = (none, some (.text "unexpected response length: 5")) ∧
      unmarshalSuvGradesResponse goJson "[7,[-2e308]]"
        = (none, some (.jsonType "number -2e308" "float64")) :=
  ⟨unmarshalSuvGradesResponse_unexpected_length goJson "[]" [] rfl (by decide),
   unmarshalSuvGradesResponse_unexpected_length goJson "[\"PAGADO\",\"REGULAR\",[]]"
     [.str "PAGADO", .str "REGULAR", .arr []] rfl (by decide),
   unmarshalSuvGradesResponse_unexpected_length goJson
     "[\"PAGADO\",12.5,[],\"2024-I\",null]"
     [.str "PAGADO", .num "12.5", .arr [], .str "2024-I", .null] rfl (by decide),
   unmarshalSuvGradesResponse_unexpected_length goJson "[7,[-2e308]]"
     [.num "7", .arr [.num "-2e308"]] rfl (by decide)⟩

/-- C2 fails as stated: the text `[1e400]` is a top-level array of one
element, and the result is the type error of `json.Unmarshal` for the number,
not the error that reports the length. -/
theorem unmarshalSuvGradesResponse_unexpected_length_counterexample :
    goJson.unmarshal "[1e400]" = .ok (.arr [.num "1e400"]) ∧
      unmarshalSuvGradesResponse goJson "[1e400]"
        = (none, some (.jsonType "number 1e400" "float64")) ∧
      unmarshalSuvGradesResponse goJson "[1e400]"
        ≠ (none, some (.text "unexpected response length: 1")) := by
  refine ⟨rfl, ?_, ?_⟩ <;> decide

/-- C3, as the code has it: in a text that is an array of 4 elements whose
element 0, 1 or 3 is not a string, the result is no record and an error.
When every number of the array fits a `float64` it is the unexpected-type
error of the first such element (payment status for index 0, enrollment type
for index 1, semester for index 3), whatever element 2 is; otherwise it is
the type error of `json.Unmarshal` for the first number that does not fit. -/
theorem unmarshalSuvGradesResponse_unexpected_type (js : JsonText) (data : String)
    (r0 r1 r2 r3 : JSON) (hdoc : js.unmarshal data = .ok (.arr [r0, r1, r2, r3]))
    (hbad : r0.isStr = false ∨ r1.isStr = false ∨ r3.isStr = false) :
    unmarshalSuvGradesResponse js data
      = (none, some (
          match firstBadNumberIn [r0, r1, r2, r3] with
          | some lit => .jsonType ("number " ++ lit) "float64"
          | none => .text (
              if r0.isStr = false then "unexpected type for payment status: " ++ goTypeName r0
              else if r1.isStr = false then
                "unexpected type for enrollment type: " ++ goTypeName r1
              else "unexpected type for semester: " ++ goTypeName r3))) := by
  unfold unmarshalSuvGradesResponse
  rw [hdoc]
  simp only [unmarshalInterfaceSlice]
  cases firstBadNumberIn [r0, r1, r2, r3] with
  | some lit => rfl
  | none =>
    cases r0 <;> simp [JSON.isStr] at hbad ⊢
    cases r1 <;> simp [JSON.isStr] at hbad ⊢
    cases r3 <;> simp [JSON.isStr] at hbad ⊢

/-- C3, the amended claim at a number at index 0, at `null` at index 1 with a
string at index 2, at an array at index 3 after a number at index 1, and at
a number beyond `float64` at index 3. -/
theorem unmarshalSuvGradesResponse_unexpected_type_witness :
    unmarshalSuvGradesResponse goJson "[1,\"REGULAR\",[],\"2024-I\"]"
        = (none, some (.text "unexpected type for payment status: float64")) ∧
      unmarshalSuvGradesResponse goJson "[\"PAGADO\",null,\"x\",\"2024-I\"]"
        = (none, some (.text "unexpected type for enrollment type: <nil>")) ∧
      unmarshalSuvGradesResponse goJson "[\"PAGADO\",7,\x7b\x7d,[]]"
        = (none, some (.text "unexpected type for enrollment type: float64")) ∧
      unmarshalSuvGradesResponse goJson "[\"PAGADO\",\"REGULAR\",[],9e999]"
        = (none, some (.jsonType "number 9e999" "float64")) :=
  ⟨unmarshalSuvGradesResponse_unexpected_type goJson "[1,\"REGULAR\",[],\"2024-I\"]"
     (.num "1") (.str "REGULAR") (.arr []) (.str "2024-I") rfl (by decide),
   unmarshalSuvGradesResponse_unexpected_type goJson "[\"PAGADO\",null,\"x\",\"2024-I\"]"
     (.str "PAGADO") .null (.str "x") (.str "2024-I") rfl (by decide),
   unmarshalSuvGradesResponse_unexpected_type goJson "[\"PAGADO\",7,\x7b\x7d,[]]"
     (.str "PAGADO") (.num "7") (.obj []) (.arr []) rfl (by decide),
   unmarshalSuvGradesResponse_unexpected_type goJson "[\"PAGADO\",\"REGULAR\",[],9e999]"
     (.str "PAGADO") (.str "REGULAR") (.arr []) (.num "9e999") rfl (by decide)⟩

/-- C3 fails as stated: in `[1e400,"REGULAR",[],"2024-I"]` element 0 is a
number, and in `[1,"REGULAR",[1e400],"2024-I"]` element 0 is a number and
element 2 holds a number beyond `float64`; both give the type error of
`json.Unmarshal` for `1e400`, not the unexpected-type error for the payment
status. -/
theorem unmarshalSuvGradesResponse_unexpected_type_counterexample :
    goJson.unmarshal "[1e400,\"REGULAR\",[],\"2024-I\"]"
        = .ok (.arr [.num "1e400", .str "REGULAR", .arr [], .str "2024-I"]) ∧
      unmarshalSuvGradesResponse goJson "[1e400,\"REGULAR\",[],\"2024-I\"]"
        = (none, some (.jsonType "number 1e400" "float64")) ∧
      goJson.unmarshal "[1,\"REGULAR\",[1e400],\"2024-I\"]"
        = .ok (.arr [.num "1", .str "REGULAR", .arr [.num "1e400"], .str "2024-I"]) ∧
      unmarshalSuvGradesResponse goJson "[1,\"REGULAR\",[1e400],\"2024-I\"]"
        = (none, some (.jsonType "number 1e400" "float64")) ∧
      unmarshalSuvGradesResponse goJson "[1,\"REGULAR\",[1e400],\"2024-I\"]"
        ≠ (none, some (.text "unexpected type for payment status: float64")) := by
  refine ⟨rfl, ?_, rfl, ?_, ?_⟩ <;> decide

/-- C6, as the code has it: a response whose body holds the error marker
gives the upstream-error failure when its status code is 200, and the
unexpected-status failure when it is not. -/
theorem checkResponseBody_marker (res : Response)
    (hmark : Contains res.Body errorMarker = true) :
    checkResponseBody res
      = if res.StatusCode = 200 then
          some (.text "suv2 replied with an error, check your session id or try logging in again")
        else some (.text ("unexpected response status: " ++ res.Status)) := by
  unfold checkResponseBody
  by_cases h : res.StatusCode = 200 <;> simp [h, hmark]

/-- C6, the amended claim at a 200 response and at a 500 response with the
same body. -/
theorem checkResponseBody_marker_witness :
    checkResponseBody
        { StatusCode := 200, Status := "200 OK",
          Body := "<b>Warning</b> in C:\\wamp64\\www\\SistemaSUV2\\portal\\x.php" }
      = some (.text "suv2 replied with an error, check your session id or try logging in again") :=
  checkResponseBody_marker
    { StatusCode := 200, Status := "200 OK",
      Body := "<b>Warning</b> in C:\\wamp64\\www\\SistemaSUV2\\portal\\x.php" } (by decide)

/-- C6 fails as stated: at status 500 a body that holds the error marker gives
the unexpected-status failure, not the upstream-error failure. -/
theorem checkResponseBody_marker_counterexample :
    Contains "<b>Warning</b> in C:\\wamp64\\www\\SistemaSUV2\\portal\\x.php" errorMarker = true ∧
      checkResponseBody
          { StatusCode := 500, Status := "500 Internal Server Error",
            Body := "<b>Warning</b> in C:\\wamp64\\www\\SistemaSUV2\\portal\\x.php" }
        = some (.text "unexpected response status: 500 Internal Server Error") ∧
      checkResponseBody
          { StatusCode := 500, Status := "500 Internal Server Error",
            Body := "<b>Warning</b> in C:\\wamp64\\www\\SistemaSUV2\\portal\\x.php" }
        ≠ some (.text "suv2 replied with an error, check your session id or try logging in again") := by
  decide

/-- C7: `LoadPhpSession` fails exactly when `Config.PhpSession` is empty; when
it fails the jar is unchanged; when it succeeds the jar returns a cookie
named PHPSESSID whose value is `Config.PhpSession`; `Config.PhpSession` is
unchanged either way. -/
theorem LoadPhpSession_spec (c : SuvClient) :
    ((LoadPhpSession c).2 ≠ none ↔ c.Config.PhpSession = "") ∧
      ((LoadPhpSession c).2 ≠ none → (LoadPhpSession c).1.Jar = c.Jar) ∧
      ((LoadPhpSession c).2 = none →
        ∃ k ∈ (LoadPhpSession c).1.Jar.Cookies,
          k.Name = "PHPSESSID" ∧ k.Value = c.Config.PhpSession) ∧
      (LoadPhpSession c).1.Config.PhpSession = c.Config.PhpSession := by
  unfold LoadPhpSession
  by_cases h : c.Config.PhpSession = ""
  · simp [h]
  · simp [h, SuvCookieJar.SetCookies, SuvCookieJar.Cookies]

/-- C7, at a client whose `Config.PhpSession` is "abc123" and at a new client
without one. -/
theorem LoadPhpSession_spec_witness :
    (LoadPhpSession (NewSuvClient { PhpSession := "abc123" })).2 = none ∧
      (LoadPhpSession (NewSuvClient { PhpSession := "abc123" })).1.Jar.Cookies
        = [{ Name := "PHPSESSID", Value := "abc123" }] ∧
      (LoadPhpSession (NewSuvClient {})).2 = some (.text "php session is empty") ∧
      ((LoadPhpSession (NewSuvClient {})).2 ≠ none ↔ (NewSuvClient {}).Config.PhpSession = "") :=
  ⟨by decide, by decide, by decide, (LoadPhpSession_spec (NewSuvClient {})).1⟩

/-- C8: for a logout response the transport delivers, `Logout` fails exactly
when the body lacks the confirmation phrase; when it fails
`Config.PhpSession` keeps its value, when it succeeds `Config.PhpSession` is
empty afterwards. -/
theorem Logout_spec (c : SuvClient) (res : Response) :
    ((Logout c (.response res)).2 ≠ none ↔ Contains res.Body "Su sesion ha culminado" = false) ∧
      ((Logout c (.response res)).2 ≠ none →
        (Logout c (.response res)).1.Config.PhpSession = c.Config.PhpSession) ∧
      ((Logout c (.response res)).2 = none →
        (Logout c (.response res)).1.Config.PhpSession = "") := by
  unfold Logout clientDo
  by_cases h : Contains res.Body "Su sesion ha culminado" = true
  · simp [h]
  · simp only [Bool.not_eq_true] at h
    by_cases hc : res.Cookies.length > 0 <;> simp [h, hc]

/-- C8, at a body with the phrase (once with a session, once without) and at
a body without it. -/
theorem Logout_spec_witness :
    (Logout (NewSuvClient { PhpSession := "abc123" })
        (.response { StatusCode := 200, Status := "200 OK",
                     Body := "<p>Su sesion ha culminado</p>" })).1.Config.PhpSession = "" ∧
      (Logout (NewSuvClient {})
        (.response { StatusCode := 200, Status := "200 OK",
                     Body := "<p>Su sesion ha culminado</p>" })).2 = none ∧
      (Logout (NewSuvClient { PhpSession := "abc123" })
        (.response { StatusCode := 200, Status := "200 OK", Body := "<p>Error</p>" }))
        = (NewSuvClient { PhpSession := "abc123" },
           some (.text "logout failed: unexpected response")) ∧
      ((Logout (NewSuvClient { PhpSession := "abc123" })
          (.response { StatusCode := 200, Status := "200 OK", Body := "<p>Error</p>" })).2 ≠ none ↔
        Contains "<p>Error</p>" "Su sesion ha culminado" = false) :=
  ⟨by decide, by decide, by decide,
   (Logout_spec (NewSuvClient { PhpSession := "abc123" })
      { StatusCode := 200, Status := "200 OK", Body := "<p>Error</p>" }).1⟩

/-! ### The jar and the session -/

/-- Storing the cookies of a response one at a time leaves the last one in
the jar, and the rest of the client as it was. -/
theorem setCookies_foldl (cookies : List Cookie) (c : SuvClient) :
    cookies.foldl (fun c1 cookie => { c1 with Jar := c1.Jar.SetCookies [cookie] }) c
      = { c with Jar := match cookies.getLast? with
                        | some k => { cookies := [k] }
                        | none => c.Jar } := by
  induction cookies generalizing c with
  | nil => rfl
  | cons k ks ih =>
    rw [List.foldl_cons, ih]
    cases ks with
    | nil => rfl
    | cons k2 ks2 =>
      rw [List.getLast?_cons_cons]
      cases hl : (k2 :: ks2).getLast? with
      | none => simp at hl
      | some k3 => rfl

/-- After its loop, `Config.PhpSession` is what it was or the value of a
PHPSESSID cookie of the jar. -/
theorem storePhpSession_value (cookies : List Cookie) (cfg : SuvConfig) :
    (storePhpSession cfg cookies).PhpSession = cfg.PhpSession ∨
      ∃ k ∈ cookies, k.Name = "PHPSESSID" ∧ k.Value = (storePhpSession cfg cookies).PhpSession := by
  induction cookies generalizing cfg with
  | nil => exact Or.inl rfl
  | cons k ks ih =>
    have hstep : storePhpSession cfg (k :: ks)
        = storePhpSession
            (if k.Name = "PHPSESSID" then { cfg with PhpSession := k.Value } else cfg) ks := rfl
    rw [hstep]
    rcases ih (if k.Name = "PHPSESSID" then { cfg with PhpSession := k.Value } else cfg) with h | h
    · by_cases hk : k.Name = "PHPSESSID"
      · right
        refine ⟨k, List.mem_cons_self _ _, hk, ?_⟩
        rw [h]; simp [hk]
      · left
        rw [h]; simp [hk]
    · right
      obtain ⟨k2, hmem, hname, hval⟩ := h
      exact ⟨k2, List.mem_cons_of_mem _ hmem, hname, hval⟩

/-- The loop of `handleLoginResponse` on a jar that holds one cookie. -/
theorem storePhpSession_single (cfg : SuvConfig) (k : Cookie) :
    storePhpSession cfg [k]
      = if k.Name = "PHPSESSID" then { cfg with PhpSession := k.Value } else cfg := rfl

/-- An accepted login response passes `checkResponseBody` and decodes to a
string array that starts with an element other than "0". -/
theorem loginAccepted_iff (js : JsonText) (res : Response) :
    loginAccepted js res = true ↔
      checkResponseBody res = none ∧
        ∃ first rest, decodeValidarPhpResponse js res.Body = .ok (first :: rest) ∧ first ≠ "0" := by
  unfold loginAccepted
  cases hc : checkResponseBody res with
  | some e => simp
  | none =>
    cases hd : decodeValidarPhpResponse js res.Body with
    | error e => simp
    | ok l =>
      cases l with
      | nil => simp
      | cons first rest => simp

/-- The client after `Login`, for a response that is not accepted: the
credentials are stored and the HTTP client has stored the cookies. -/
theorem Login_not_accepted (js : JsonText) (c : SuvClient) (usercode password : String)
    (res : Response) (h : loginAccepted js res = false) :
    (Login js c usercode password (.response res)).1
      = clientDo { c with Config := { c.Config with UserCode := usercode, Password := password } }
          res := by
  unfold loginAccepted at h
  unfold Login urlEncodedPostRequest handleLoginResponse
  cases hc : checkResponseBody res with
  | some e => simp [hc]
  | none =>
    rw [hc] at h
    cases hd : decodeValidarPhpResponse js res.Body with
    | error e => simp [hc, hd]
    | ok l =>
      rw [hd] at h
      cases l with
      | nil => simp [hc, hd]
      | cons first rest =>
        have h0 : first = "0" := by simpa using h
        simp [hc, hd, h0]

/-- The result of `Login` for an accepted response. -/
theorem Login_accepted (js : JsonText) (c : SuvClient) (usercode password : String)
    (res : Response) (h : loginAccepted js res = true) :
    Login js c usercode password (.response res)
      = (let c1 := clientDo
            { c with Config := { c.Config with UserCode := usercode, Password := password } } res
         let c2 := (setCookiesFromResponse c1 res).1
         let c3 := { c2 with Config := storePhpSession c2.Config c2.Jar.Cookies }
         (c3, some c3.Config.PhpSession, none)) := by
  obtain ⟨hc, first, rest, hd, hne⟩ := (loginAccepted_iff js res).1 h
  unfold Login urlEncodedPostRequest handleLoginResponse
  simp [hc, hd, hne]

/-- A response without cookies leaves the client as it is in `HttpClient.Do`. -/
theorem clientDo_no_cookies (c : SuvClient) (res : Response) (h : res.Cookies = []) :
    clientDo c res = c := by
  simp [clientDo, h]

/-- A response without cookies leaves the client as it is in
`setCookiesFromResponse`. -/
theorem setCookiesFromResponse_no_cookies (c : SuvClient) (res : Response)
    (h : res.Cookies = []) : (setCookiesFromResponse c res).1 = c := by
  simp [setCookiesFromResponse, h]

/-- The jar after `setCookiesFromResponse` holds the last cookie of a
response that has cookies, and nothing else. -/
theorem setCookiesFromResponse_last (c : SuvClient) (res : Response) (k : Cookie)
    (h : res.Cookies.getLast? = some k) :
    (setCookiesFromResponse c res).1 = { c with Jar := { cookies := [k] } } := by
  have hne : res.Cookies ≠ [] := by
    intro h0
    rw [h0] at h
    simp at h
  have hlen : res.Cookies.length ≠ 0 := by
    intro h0
    exact hne (List.length_eq_zero.1 h0)
  unfold setCookiesFromResponse
  rw [if_neg hlen, setCookies_foldl, h]

/-- Storing credentials keeps the session in the jar. -/
theorem sessionInJar_credentials (c : SuvClient) (usercode password : String)
    (h : sessionInJar c) :
    sessionInJar { c with Config := { c.Config with UserCode := usercode, Password := password } } :=
  h

/-- One call whose response sets cookies only as an accepted login response
ending in PHPSESSID keeps the session in the jar. -/
theorem Call.apply_sessionInJar (js : JsonText) (c : SuvClient) (call : Call)
    (htidy : call.setsSessionOnly js = true) (hinv : sessionInJar c) :
    sessionInJar (call.apply js c) := by
  cases call with
  | loadPhpSession =>
    show sessionInJar (LoadPhpSession c).1
    unfold LoadPhpSession
    by_cases h : c.Config.PhpSession = ""
    · rw [if_pos h]; exact hinv
    · rw [if_neg h]
      intro _
      exact ⟨{ Name := "PHPSESSID", Value := c.Config.PhpSession }, List.mem_singleton.2 rfl,
        rfl, rfl⟩
  | logout x =>
    show sessionInJar (Logout c x).1
    cases x with
    | requestError err => exact hinv
    | transportError err => exact hinv
    | response res =>
      have hempty : res.Cookies = [] := by
        simpa [Call.setsSessionOnly] using htidy
      unfold Logout
      simp only [clientDo_no_cookies c res hempty]
      by_cases hp : Contains res.Body "Su sesion ha culminado" = true
      · simp only [hp, not_true_eq_false, if_false]
        intro hne
        exact absurd rfl hne
      · simp only [hp, not_false_eq_true, if_true]
        exact hinv
  | login usercode password x =>
    show sessionInJar (Login js c usercode password x).1
    cases x with
    | requestError err => exact sessionInJar_credentials c usercode password hinv
    | transportError err => exact sessionInJar_credentials c usercode password hinv
    | response res =>
      have hinv0 := sessionInJar_credentials c usercode password hinv
      by_cases hacc : loginAccepted js res = true
      · rw [Login_accepted js c usercode password res hacc]
        by_cases hempty : res.Cookies = []
        · simp only [clientDo_no_cookies _ res hempty, setCookiesFromResponse_no_cookies _ res hempty]
          intro hne
          rcases storePhpSession_value c.Jar.Cookies
              { c.Config with UserCode := usercode, Password := password } with h | h
          · have hne2 : c.Config.PhpSession ≠ "" := by
              intro h0
              apply hne
              show (storePhpSession _ _).PhpSession = ""
              rw [h]; exact h0
            obtain ⟨k, hmem, hname, hval⟩ := hinv hne2
            refine ⟨k, hmem, hname, ?_⟩
            show k.Value = (storePhpSession _ _).PhpSession
            rw [h]; exact hval
          · exact h
        · have hlast : endsWithPhpSession res.Cookies = true := by
            have : res.Cookies.isEmpty = false := by
              cases hc : res.Cookies with
              | nil => exact absurd hc hempty
              | cons _ _ => rfl
            simpa [Call.setsSessionOnly, this, hacc] using htidy
          unfold endsWithPhpSession at hlast
          cases hl : res.Cookies.getLast? with
          | none => rw [hl] at hlast; exact absurd hlast (by simp)
          | some k =>
            rw [hl] at hlast
            have hname : k.Name = "PHPSESSID" := by simpa using hlast
            simp only [setCookiesFromResponse_last _ res k hl, SuvCookieJar.Cookies,
              storePhpSession_single, hname, if_true]
            intro _
            exact ⟨k, List.mem_singleton.2 rfl, hname, rfl⟩
      · have hacc2 : loginAccepted js res = false := by simpa using hacc
        have hempty : res.Cookies = [] := by
          simpa [Call.setsSessionOnly, hacc2] using htidy
        rw [Login_not_accepted js c usercode password res hacc2, clientDo_no_cookies _ res hempty]
        exact hinv0

/-- A sequence of such calls keeps the session in the jar. -/
theorem runCalls_sessionInJar (js : JsonText) (calls : List Call) (c : SuvClient)
    (htidy : ∀ call ∈ calls, call.setsSessionOnly js = true) (hinv : sessionInJar c) :
    sessionInJar (runCalls js c calls) := by
  induction calls generalizing c with
  | nil => exact hinv
  | cons call rest ih =>
    show sessionInJar (runCalls js (call.apply js c) rest)
    exact ih (call.apply js c) (fun k hk => htidy k (List.mem_cons_of_mem _ hk))
      (Call.apply_sessionInJar js c call (htidy call (List.mem_cons_self _ _)) hinv)

/-- After `LoadPhpSession`, on any client, the session is in the jar. -/
theorem LoadPhpSession_sessionInJar (c : SuvClient) : sessionInJar (LoadPhpSession c).1 := by
  unfold LoadPhpSession
  by_cases h : c.Config.PhpSession = ""
  · rw [if_pos h]
    intro hne
    exact absurd h hne
  · rw [if_neg h]
    intro _
    exact ⟨{ Name := "PHPSESSID", Value := c.Config.PhpSession }, List.mem_singleton.2 rfl,
      rfl, rfl⟩

/-- C9, as the code has it: in every client state reached from
`NewSuvClient(cfg)` followed by `LoadPhpSession`, by any sequence of `Login`,
`LoadPhpSession` and `Logout` calls whose responses set cookies only as an
accepted login response with the PHPSESSID cookie last, a non-empty
`Config.PhpSession` is the value of a PHPSESSID cookie of the jar. -/
theorem sessionInJar_reachable (js : JsonText) (cfg : SuvConfig) (calls : List Call)
    (htidy : ∀ call ∈ calls, call.setsSessionOnly js = true) :
    sessionInJar (runCalls js (LoadPhpSession (NewSuvClient cfg)).1 calls) :=
  runCalls_sessionInJar js calls _ htidy (LoadPhpSession_sessionInJar (NewSuvClient cfg))

/-- C9, the amended claim on a restored session followed by a rejected
login, an accepted login with two cookies, a logout and a second restore. -/
theorem sessionInJar_reachable_witness :
    sessionInJar
      (runCalls goJson (LoadPhpSession (NewSuvClient { Host := "suv.example", PhpSession := "old" })).1
        [.login "12345" "wrong"
           (.response { StatusCode := 200, Status := "200 OK", Body := "[\"0\"]" }),
         .login "12345" "secret"
           (.response { StatusCode := 200, Status := "200 OK", Body := "[\"1\"]",
                        Cookies := [{ Name := "lang", Value := "es" },
                                    { Name := "PHPSESSID", Value := "abc123" }] }),
         .logout (.response { StatusCode := 200, Status := "200 OK",
                              Body := "Su sesion ha culminado" }),
         .loadPhpSession,
         .login "12345" "secret"
           (.response { StatusCode := 200, Status := "200 OK", Body := "[\"1\"]" })]) :=
  sessionInJar_reachable goJson { Host := "suv.example", PhpSession := "old" } _ (by decide)

/-- C9 fails as stated: the client `NewSuvClient(cfg)` of a configuration with
a session has a non-empty `Config.PhpSession` and an empty jar. -/
theorem sessionInJar_counterexample :
    (runCalls goJson (NewSuvClient { Host := "suv.example", PhpSession := "abc123" }) []).Config.PhpSession
        = "abc123" ∧
      (runCalls goJson (NewSuvClient { Host := "suv.example", PhpSession := "abc123" }) []).Jar.Cookies
        = [] ∧
      ¬ sessionInJar (runCalls goJson (NewSuvClient { Host := "suv.example", PhpSession := "abc123" }) []) := by
  refine ⟨rfl, rfl, ?_⟩
  intro h
  obtain ⟨k, hk, _⟩ := h (by decide)
  exact absurd hk (List.not_mem_nil k)

/-- C5, as the code has it: for a response that passes `checkResponseBody`
and whose body decodes to a string array that starts with "0", `Login` fails
with the rejection error, returns no token and leaves `Config.PhpSession` as
it was; `handleLoginResponse` leaves the client as it is; the jar afterwards
is the jar before when the response has no cookie, and holds the cookies of
the response, stored by the HTTP client, when it has some. -/
theorem Login_rejected (js : JsonText) (c : SuvClient) (usercode password : String)
    (res : Response) (rest : List String)
    (hpass : checkResponseBody res = none)
    (hbody : decodeValidarPhpResponse js res.Body = .ok ("0" :: rest)) :
    (Login js c usercode password (.response res)).2
        = (none, some (.text "login failed, check your credentials")) ∧
      (Login js c usercode password (.response res)).1.Config.PhpSession = c.Config.PhpSession ∧
      (handleLoginResponse js c res).1 = c ∧
      (Login js c usercode password (.response res)).1.Jar
        = (if res.Cookies = [] then c.Jar else { cookies := res.Cookies }) := by
  unfold Login urlEncodedPostRequest handleLoginResponse clientDo
  by_cases hempty : res.Cookies = []
  · simp [hpass, hbody, hempty]
  · have hlen : res.Cookies.length > 0 := List.length_pos.2 hempty
    simp [hpass, hbody, hempty, hlen, SuvCookieJar.SetCookies]

/-- C5, the amended claim at the body `["0"]` without cookies and at the body
`["0","x"]` with a cookie. -/
theorem Login_rejected_witness :
    (Login goJson (NewSuvClient { PhpSession := "old" }) "12345" "wrong"
        (.response { StatusCode := 200, Status := "200 OK", Body := "[\"0\"]" })).2
        = (none, some (.text "login failed, check your credentials")) ∧
      (Login goJson (NewSuvClient { PhpSession := "old" }) "12345" "wrong"
        (.response { StatusCode := 200, Status := "200 OK", Body := "[\"0\",\"x\"]",
                     Cookies := [{ Name := "PHPSESSID", Value := "zzz" }] })).1.Config.PhpSession
        = "old" :=
  ⟨(Login_rejected goJson (NewSuvClient { PhpSession := "old" }) "12345" "wrong"
      { StatusCode := 200, Status := "200 OK", Body := "[\"0\"]" } [] (by decide) rfl).1,
   (Login_rejected goJson (NewSuvClient { PhpSession := "old" }) "12345" "wrong"
      { StatusCode := 200, Status := "200 OK", Body := "[\"0\",\"x\"]",
        Cookies := [{ Name := "PHPSESSID", Value := "zzz" }] } ["x"] (by decide) rfl).2.1⟩

/-- C5 fails as stated: a rejected login whose response has status 200, the
body `["0"]` and the header `Set-Cookie: PHPSESSID=zzz` ends with that cookie
in the jar, which was empty before. -/
theorem Login_rejected_counterexample :
    decodeValidarPhpResponse goJson "[\"0\"]" = .ok ["0"] ∧
      (NewSuvClient {}).Jar.Cookies = [] ∧
      (Login goJson (NewSuvClient {}) "12345" "wrong"
        (.response { StatusCode := 200, Status := "200 OK", Body := "[\"0\"]",
                     Cookies := [{ Name := "PHPSESSID", Value := "zzz" }] })).2
        = (none, some (.text "login failed, check your credentials")) ∧
      (Login goJson (NewSuvClient {}) "12345" "wrong"
        (.response { StatusCode := 200, Status := "200 OK", Body := "[\"0\"]",
                     Cookies := [{ Name := "PHPSESSID", Value := "zzz" }] })).1.Jar.Cookies
        = [{ Name := "PHPSESSID", Value := "zzz" }] := by
  refine ⟨rfl, rfl, ?_, ?_⟩ <;> decide

/-- An accepted login response whose last cookie is PHPSESSID with value `v`
gives the token `v`, stored in `Config.PhpSession`, and a jar that holds that
cookie only. -/
theorem Login_session_cookie_last (js : JsonText) (c : SuvClient) (usercode password : String)
    (res : Response) (k : Cookie) (hacc : loginAccepted js res = true)
    (hlast : res.Cookies.getLast? = some k) (hname : k.Name = "PHPSESSID") :
    (Login js c usercode password (.response res)).2 = (some k.Value, none) ∧
      (Login js c usercode password (.response res)).1.Config.PhpSession = k.Value ∧
      (Login js c usercode password (.response res)).1.Jar.Cookies = [k] := by
  rw [Login_accepted js c usercode password res hacc]
  simp [setCookiesFromResponse_last _ res k hlast, SuvCookieJar.Cookies,
    storePhpSession_single, hname]

/-- C4, on the code: with the body `["1"]` and the cookies `PHPSESSID=abc123`,
`lang=es` in this order, `handleLoginResponse` and `Login` leave only
`lang=es` in the jar, leave `Config.PhpSession` empty and return the empty
token without an error; with `PHPSESSID=abc123` as the single cookie, or as
the last one, the token is "abc123". -/
theorem Login_session_cookie_not_last :
    handleLoginResponse goJson (NewSuvClient {})
        { StatusCode := 200, Status := "200 OK", Body := "[\"1\"]",
          Cookies := [{ Name := "PHPSESSID", Value := "abc123" }, { Name := "lang", Value := "es" }] }
      = ({ NewSuvClient {} with Jar := { cookies := [{ Name := "lang", Value := "es" }] } },
         some "", none) ∧
    Login goJson (NewSuvClient {}) "12345" "secret"
        (.response { StatusCode := 200, Status := "200 OK", Body := "[\"1\"]",
                     Cookies := [{ Name := "PHPSESSID", Value := "abc123" }, { Name := "lang", Value := "es" }] })
      = ({ NewSuvClient { UserCode := "12345", Password := "secret" } with
             Jar := { cookies := [{ Name := "lang", Value := "es" }] } },
         some "", none) ∧
    Login goJson (NewSuvClient {}) "12345" "secret"
        (.response { StatusCode := 200, Status := "200 OK", Body := "[\"1\"]",
                     Cookies := [{ Name := "PHPSESSID", Value := "abc123" }] })
      = ({ NewSuvClient { UserCode := "12345", Password := "secret", PhpSession := "abc123" } with
             Jar := { cookies := [{ Name := "PHPSESSID", Value := "abc123" }] } },
         some "abc123", none) ∧
    Login goJson (NewSuvClient {}) "12345" "secret"
        (.response { StatusCode := 200, Status := "200 OK", Body := "[\"1\"]",
                     Cookies := [{ Name := "lang", Value := "es" }, { Name := "PHPSESSID", Value := "abc123" }] })
      = ({ NewSuvClient { UserCode := "12345", Password := "secret", PhpSession := "abc123" } with
             Jar := { cookies := [{ Name := "PHPSESSID", Value := "abc123" }] } },
         some "abc123", none) := by
  refine ⟨?_, ?_, ?_, ?_⟩ <;> decide

/-- The searches never return an error: each returns a result with a nil
error or panics. -/
theorem search_never_returns_error (js : JsonText) (c : SuvClient) (a b : String) (x : Exchange)
    (r : Option (List StudentBasicResponse)) (q : Option (List ProfessorBasicResponse))
    (e : GoError) :
    (SearchStudentByName js c a b x).2 ≠ .returned r (some e) ∧
      (SearchStudentByCode js c a x).2 ≠ .returned r (some e) ∧
      (SearchStudentByDni js c a x).2 ≠ .returned r (some e) ∧
      (SearchProfessor js c a b x).2 ≠ .returned q (some e) := by
  unfold SearchStudentByName SearchStudentByCode SearchStudentByDni SearchProfessor
  refine ⟨?_, ?_, ?_, ?_⟩
  · cases h : (searchGeneric c x (parseSearchStudentResponse js)).2 <;> simp [assertStudents, h]
  · cases h : (searchGeneric c x (parseSearchStudentResponse js)).2 <;> simp [assertStudents, h]
  · cases h : (searchGeneric c x (parseSearchStudentResponse js)).2 <;> simp [assertStudents, h]
  · cases h : (searchGeneric c x (parseSearchProfessorResponse js)).2 <;>
      simp [assertProfessors, h]

/-- A search whose request pipeline fails panics in its type assertion. -/
theorem search_pipeline_failure_panics (js : JsonText) (c : SuvClient) (a b : String)
    (x : Exchange) (e : GoError) (hfail : (urlEncodedPostRequest c x).2 = .error e) :
    (SearchStudentByName js c a b x).2 = .assertionPanic "nil" "*[]gosuv2.StudentBasicResponse" ∧
      (SearchStudentByCode js c a x).2 = .assertionPanic "nil" "*[]gosuv2.StudentBasicResponse" ∧
      (SearchStudentByDni js c a x).2 = .assertionPanic "nil" "*[]gosuv2.StudentBasicResponse" ∧
      (SearchProfessor js c a b x).2 = .assertionPanic "nil" "*[]gosuv2.ProfessorBasicResponse" := by
  have hnil : ∀ parser, (searchGeneric c x parser).2 = .nil := by
    intro parser
    unfold searchGeneric
    cases hr : urlEncodedPostRequest c x with
    | mk c1 r =>
      rw [hr] at hfail
      simp only at hfail
      subst hfail
      rfl
  unfold SearchStudentByName SearchStudentByCode SearchStudentByDni SearchProfessor
  simp only [hnil]
  exact ⟨rfl, rfl, rfl, rfl⟩

/-- C10, on the code: on a response with status 500, on a transport error
and on a body that is not an array of student or professor objects, the four
searches panic in the type assertion on the nil result of `searchGeneric`;
none returns an error. -/
theorem search_failure_panics :
    (SearchStudentByName goJson (NewSuvClient {}) "Ana" "Diaz"
        (.response { StatusCode := 500, Status := "500 Internal Server Error", Body := "" })).2
      = .assertionPanic "nil" "*[]gosuv2.StudentBasicResponse" ∧
    (SearchStudentByCode goJson (NewSuvClient {}) "1052700"
        (.transportError (.net "dial tcp: connection refused"))).2
      = .assertionPanic "nil" "*[]gosuv2.StudentBasicResponse" ∧
    (SearchStudentByDni goJson (NewSuvClient {}) "70000000"
        (.response { StatusCode := 200, Status := "200 OK", Body := "\x7b\"error\":\"x\"\x7d" })).2
      = .assertionPanic "nil" "*[]gosuv2.StudentBasicResponse" ∧
    (SearchProfessor goJson (NewSuvClient {}) "Ana" "Diaz"
        (.response { StatusCode := 200, Status := "200 OK",
                     Body := "C:\\wamp64\\www\\SistemaSUV2\\x.php" })).2
      = .assertionPanic "nil" "*[]gosuv2.ProfessorBasicResponse" ∧
    (SearchStudentByName goJson (NewSuvClient {}) "Ana" "Diaz"
        (.response { StatusCode := 200, Status := "200 OK",
                     Body := "[\x7b\"idalumno\":\"7\",\"alumno\":\"DIAZ ANA\",\"dni\":\"70000000\"\x7d]" })).2
      = .returned (some [{ IdAlumno := "7", Alumno := "DIAZ ANA", Dni := "70000000" }]) none := by
  refine ⟨?_, ?_, ?_, ?_, ?_⟩ <;> decide

/-- C1, on the code: for the text `[" PAGADO "," REGULAR ",[]," 2024-I "]` the
payment status comes back without its surrounding spaces, the enrollment type
and the semester come back with them. -/
theorem unmarshalSuvGradesResponse_keeps_spaces :
    unmarshalSuvGradesResponse goJson "[\" PAGADO \",\" REGULAR \",[],\" 2024-I \"]"
      = (some { PaymentStatus := "PAGADO", EnrollmentType := " REGULAR ", Courses := [],
                Semester := " 2024-I " }, none) ∧
    TrimSpace (Trim " REGULAR " "\"") = "REGULAR" ∧
    TrimSpace (Trim " 2024-I " "\"") = "2024-I" := by
  refine ⟨?_, ?_, ?_⟩ <;> decide

/-! ### Decoding the courses -/

/-- A string decodes into a `string`. -/
theorem decodeString_isStr (old : String) (v : JSON) (h : v.isStr = true) :
    ∃ s, decodeString old v = .ok s := by
  cases v <;> simp [JSON.isStr] at h
  exact ⟨_, rfl⟩

/-- An array of strings decodes, element by element, into as many strings. -/
theorem decodeStringElems_isStr (elems : List JSON) (old : List String)
    (h : elems.all JSON.isStr = true) : ∃ ss, decodeStringElems old elems = .ok ss := by
  induction elems generalizing old with
  | nil => exact ⟨[], rfl⟩
  | cons v vs ih =>
    rw [List.all_cons, Bool.and_eq_true] at h
    obtain ⟨s, hs⟩ := decodeString_isStr (old.headD "") v h.1
    obtain ⟨ss, hss⟩ := ih old.tail h.2
    exact ⟨s :: ss, by simp only [decodeStringElems, hs, hss]⟩

/-- An array of strings decodes into a `[]string`. -/
theorem decodeStringSlice_isStrArray (old spare : List String) (v : JSON)
    (h : v.isStrArray = true) : ∃ r, decodeStringSlice old spare v = .ok r := by
  cases v <;> simp [JSON.isStrArray] at h
  case arr elems =>
    cases elems with
    | nil => exact ⟨_, rfl⟩
    | cons w ws =>
      obtain ⟨ss, hss⟩ := decodeStringElems_isStr (w :: ws) (old ++ spare) (by simpa using h)
      exact ⟨(ss, (old ++ spare).drop (w :: ws).length), by simp only [decodeStringSlice, hss]⟩

/-- A string stored in a `string` field. -/
theorem map_decodeString_ok {α : Type} (f : String → α) (old : String) (v : JSON)
    (h : v.isStr = true) : ∃ x, Except.map f (decodeString old v) = .ok x := by
  obtain ⟨s, e⟩ := decodeString_isStr old v h
  exact ⟨f s, by rw [e]; rfl⟩

/-- An array of strings stored in a `[]string` field. -/
theorem map_decodeStringSlice_ok {α : Type} (f : List String × List String → α)
    (old spare : List String) (v : JSON) (h : v.isStrArray = true) :
    ∃ x, Except.map f (decodeStringSlice old spare v) = .ok x := by
  obtain ⟨s, e⟩ := decodeStringSlice_isStrArray old spare v h
  exact ⟨f s, by rw [e]; rfl⟩

/-- A conditional succeeds when both its branches do. -/
theorem ite_ok {α : Type} (p : Prop) [Decidable p] (a b : Except GoError α)
    (ha : p → ∃ x, a = .ok x) (hb : ¬ p → ∃ x, b = .ok x) :
    ∃ x, (if p then a else b) = .ok x := by
  by_cases hp : p
  · rw [if_pos hp]; exact ha hp
  · rw [if_neg hp]; exact hb hp

/-- A member that fits the schema is stored without error. -/
theorem setField_fits (d : CourseDecoding) (k : String) (v : JSON)
    (h : memberFitsCourse (k, v) = true) : ∃ d1, d.setField k v = .ok d1 := by
  have hl : courseListTags.contains (foldName k) = true → v.isStrArray = true := by
    intro hk
    unfold memberFitsCourse at h
    rw [if_pos hk] at h
    exact h
  have hs : courseStringTags.contains (foldName k) = true → v.isStr = true := by
    intro hk
    unfold memberFitsCourse at h
    by_cases hk2 : courseListTags.contains (foldName k) = true
    · exfalso
      revert hk hk2
      generalize foldName k = n
      intro hk hk2
      simp only [courseStringTags, courseListTags, List.contains_eq_any_beq, List.any_cons,
        List.any_nil, Bool.or_false, Bool.or_eq_true, beq_iff_eq] at hk hk2
      rcases hk2 with hk2 | hk2 <;> subst hk2 <;> revert hk <;> decide
    · rw [if_neg hk2, if_pos hk] at h
      exact h
  unfold CourseDecoding.setField
  simp only
  repeat' (refine ite_ok _ _ _ (fun hk => ?_) (fun _ => ?_))
  all_goals
    first
    | exact ⟨_, rfl⟩
    | exact map_decodeString_ok _ _ v (hs (by rw [hk]; decide))
    | exact map_decodeStringSlice_ok _ _ _ v (hl (by rw [hk]; decide))

/-- Members that fit the schema are stored without error. -/
theorem decodeMembers_fits (members : List (String × JSON)) (c : CourseDecoding)
    (h : ∀ m ∈ members, memberFitsCourse m = true) :
    ∃ c1, decodeMembers CourseDecoding.setField c members = .ok c1 := by
  induction members generalizing c with
  | nil => exact ⟨c, rfl⟩
  | cons m rest ih =>
    obtain ⟨k, v⟩ := m
    obtain ⟨c1, hc1⟩ := setField_fits c k v (h (k, v) (List.mem_cons_self _ _))
    obtain ⟨c2, hc2⟩ := ih c1 (fun m hm => h m (List.mem_cons_of_mem _ hm))
    exact ⟨c2, by simp only [decodeMembers, hc1, hc2]⟩

/-- The members of the map of an object are members of the object. -/
theorem mem_of_mem_mapMembers (members : List (String × JSON)) (m : String × JSON)
    (h : m ∈ mapMembers members) : m ∈ members := by
  unfold mapMembers at h
  obtain ⟨k, _, hk⟩ := List.mem_filterMap.1 h
  exact List.mem_reverse.1 (List.mem_of_find?_eq_some hk)

/-- An array of objects that match the course-grade schema decodes into as
many structs. -/
theorem decodeStructElems_schema (elems : List JSON)
    (h : ∀ v ∈ elems, isCourseObject v = true) :
    ∃ ds, decodeStructElems "gosuv2.SuvCurrentCourseGrades" CourseDecoding.setField {}
        (elems.map (fun v =>
          match v with
          | .obj members => .obj (mapMembers members)
          | w => w)) = .ok ds ∧
      ds.length = elems.length := by
  induction elems with
  | nil => exact ⟨[], rfl, rfl⟩
  | cons v vs ih =>
    obtain ⟨ds, hds, hlen⟩ := ih (fun w hw => h w (List.mem_cons_of_mem _ hw))
    have hv := h v (List.mem_cons_self _ _)
    cases v <;> simp [isCourseObject] at hv
    case obj members =>
      obtain ⟨d1, hd1⟩ := decodeMembers_fits (mapMembers members) {}
        (fun m hm => hv m.1 m.2 (mem_of_mem_mapMembers members m hm))
      refine ⟨d1 :: ds, ?_, by simp [hlen]⟩
      simp only [List.map_cons, decodeStructElems, decodeStruct, hd1, hds]

/-- An array of objects that match the course-grade schema decodes, after
the trip through `interface{}`, into as many courses. -/
theorem decodeCourses_schema (elems : List JSON) (h : ∀ v ∈ elems, isCourseObject v = true) :
    ∃ courses, decodeCourses (marshalInterface (.arr elems)) = .ok courses ∧
      courses.length = elems.length := by
  obtain ⟨ds, hds, hlen⟩ := decodeStructElems_schema elems h
  refine ⟨ds.map CourseDecoding.course, ?_, by simp [hlen]⟩
  unfold decodeCourses marshalInterface decodeStructSlice
  simp only [hds]
  rfl

/-- C1, the part the code keeps: for a text that is an array of two strings,
an array of objects matching the course-grade schema and a string, with
every number fitting a `float64`, `unmarshalSuvGradesResponse` succeeds; the
payment status is element 0 without its surrounding double quotes and then
without its surrounding white space, the enrollment type and the semester
are elements 1 and 3 without their surrounding double quotes, and there are
as many courses as elements of element 2. -/
theorem unmarshalSuvGradesResponse_ok (js : JsonText) (data : String) (s0 s1 s3 : String)
    (elems : List JSON)
    (hdoc : js.unmarshal data = .ok (.arr [.str s0, .str s1, .arr elems, .str s3]))
    (hnum : firstBadNumberIn elems = none)
    (hschema : ∀ v ∈ elems, isCourseObject v = true) :
    ∃ courses, courses.length = elems.length ∧
      unmarshalSuvGradesResponse js data
        = (some { PaymentStatus := TrimSpace (Trim s0 "\"")
                  EnrollmentType := Trim s1 "\""
                  Courses := courses
                  Semester := Trim s3 "\"" }, none) := by
  obtain ⟨courses, hcs, hlen⟩ := decodeCourses_schema elems hschema
  refine ⟨courses, hlen, ?_⟩
  unfold unmarshalSuvGradesResponse
  rw [hdoc]
  simp only [unmarshalInterfaceSlice, firstBadNumberIn, JSON.firstBadNumber, hnum, hcs]

/-- C1, the part the code keeps, at a text with quotes left inside its
strings and one course. -/
theorem unmarshalSuvGradesResponse_ok_witness :
    ∃ courses, courses.length = 1 ∧
      unmarshalSuvGradesResponse goJson
          "[\"\\\" PAGADO \\\"\",\"\\\"REGULAR\\\"\",[\x7b\"curso\":\"Calculus\",\"creditos\":4\x7d],\"2024-I\"]"
        = (some { PaymentStatus := "PAGADO", EnrollmentType := "REGULAR", Courses := courses,
                  Semester := "2024-I" }, none) :=
  unmarshalSuvGradesResponse_ok goJson _ "\" PAGADO \"" "\"REGULAR\"" "2024-I"
    [.obj [("curso", .str "Calculus"), ("creditos", .num "4")]] rfl (by decide) (by decide)

/-! ## Evaluation on concrete inputs -/

/-- The concrete reader on the bodies of the scenarios: `json.Unmarshal`
rejects text after the value, the decoder of a stream stops after the first
value. -/
theorem goJson_reads :
    goJson.unmarshal "[\"1\"]" = .ok (.arr [.str "1"]) ∧
    goJson.unmarshal "[\"PAGADO\",\"REGULAR\",[\x7b\"idcurso\":\"1\",\"pesos\":[\"1\",null]\x7d],\"2024-I\"]"
      = .ok (.arr [.str "PAGADO", .str "REGULAR",
          .arr [.obj [("idcurso", .str "1"), ("pesos", .arr [.str "1", .null])]], .str "2024-I"]) ∧
    goJson.unmarshal "[1.5e3, true, \x7b\x7d]x" = .error .jsonSyntax ∧
    goJson.unmarshal "[01]" = .error .jsonSyntax ∧
    goJson.decode " [-1.5e3, true, \x7b\x7d, \"a\\u0041\\n\"]x"
      = .ok (.arr [.num "-1.5e3", .bool true, .obj [], .str "aA\n"]) :=
  ⟨rfl, rfl, rfl, rfl, rfl⟩

/-- The numbers that fit a `float64` end below `2^1024 - 2^970`. -/
theorem numberFits_bound :
    numberFits "179769313486231580793e288" = true ∧
      numberFits "179769313486231580794e288" = false ∧
      numberFits "1.7976931348623157e308" = true ∧
      numberFits "-1e400" = false ∧
      numberFits "1e-400" = true ∧
      numberFits "0e999" = true := by
  decide

/-- A `[]string` field named three times in one object, as `PESOS`, `Pesos`
and `pesos`: the third decoding finds in the backing array what the first
left there, and a `null` element keeps it. -/
theorem decodeCourses_backing_array :
    decodeCourses (marshalInterface (.arr [.obj
        [("pesos", .arr [.null, .null]), ("Pesos", .arr [.str "x"]),
         ("PESOS", .arr [.str "a", .str "b", .str "c"])]]))
      = .ok [{ Pesos := ["x", "b"] }] :=
  rfl

/-- The grades scenario of the specification, through the whole request: one
course named Calculus. -/
theorem GetSuvGradesResponse_scenario :
    (GetSuvGradesResponse goJson (NewSuvClient {})
      (.response { StatusCode := 200, Status := "200 OK", Body :=
        "[\"PAGADO\",\"REGULAR\",[\x7b\"idcurso\":\"1\",\"curso\":\"Calculus\"\x7d],\"2024-I\"]" })).2
      = (some { PaymentStatus := "PAGADO", EnrollmentType := "REGULAR", Semester := "2024-I",
                Courses := [{ IdCurso := "1", Curso := "Calculus" }] }, none) := by
  decide

/-- The grades scenario of the specification: one course named Calculus. -/
theorem unmarshalSuvGradesResponse_scenario :
    unmarshalSuvGradesResponse goJson
        "[\"PAGADO\",\"REGULAR\",[\x7b\"idcurso\":\"1\",\"curso\":\"Calculus\",\"pesos\":[\"1\",null]\x7d],\"2024-I\"]"
      = (some { PaymentStatus := "PAGADO", EnrollmentType := "REGULAR", Semester := "2024-I",
                Courses := [{ IdCurso := "1", Curso := "Calculus", Pesos := ["1", ""] }] }, none) := by
  decide

end Gosuv2
